import Mathlib

/-!
Verification of the spatial-data streaming core of the earth repository:
the procedural generator (`src/utils/dataManager/MockDataGenerator.ts`),
the tile manager (`src/utils/dataManager/DataManager.ts` with
`DataBlockCache.ts`) and the projection utility
(`src/utils/3dviewer/utils/MercatorConverter.ts`).

Modelling conventions of this shallow embedding:
* JavaScript numbers are modelled as real numbers (`ℝ`); `Math.sin`,
  `Math.cos`, `Math.log`, `Math.tan`, `Math.sqrt` are the corresponding
  real functions, `Math.floor` is `Int.floor`, `Math.ceil` is `Int.ceil`,
  and `Math.round` is `fun x => ⌊x + 1/2⌋` (round half up, as in JS).
* String ids built by template literals are modelled by the injective
  data they interpolate: a block id `block_${lat}_${lng}` is the pair
  `(lat, lng)` (JS number-to-string is injective and `parseFloat`
  round-trips it, so `DataManager.loadBlocks`' parse of the id recovers
  exactly the pair), and an item id `item_${lat}_${lng}_${i}` is the
  triple `(lat, lng, i)`.
* `Date.now()` is an explicit `now` argument threaded into the calls
  that read the clock; `console.debug`/`console.error` are no-ops.
* `Map<string, DataBlock>` is an insertion-ordered association list;
  `Map.set` replaces in place or appends, `Map.delete` filters,
  `Map.values()` is the list itself.
* Listener notification is modelled by an emitted trace: each entry is
  the `DataChangeEvent` together with the cache contents at the moment
  the listeners run (what a listener calling `getLoadedBlocks()` would
  observe).
* The JS `||` defaulting of constructor options (`options.x || d`) is
  modelled by `jsOr`, which takes the default exactly when the option is
  absent or `0` (falsy).
* JS `<<` on the 32-bit wrap of its operand is modelled by `toInt32`.
-/

open Real
open scoped Classical

namespace Earth

/-! ## Configuration constants (src/config.ts) -/

namespace CONFIG

def METERS_PER_DEGREE_LAT : ℝ := 111

def METERS_PER_DEGREE_LNG : ℝ := 111

def BASE_ELEVATION_OFFSET : ℝ := 50

def BASE_ELEVATION_LAT_FREQ : ℝ := 0.05

def BASE_ELEVATION_LAT_AMP : ℝ := 100

def BASE_ELEVATION_LNG_FREQ : ℝ := 0.05

def BASE_ELEVATION_LNG_AMP : ℝ := 80

def HILL_LAT_FREQ : ℝ := 2

def HILL_LNG_FREQ : ℝ := 2

def HILL_AMP : ℝ := 60

def FEATURE_LAT_LNG_FREQ : ℝ := 1.5

def FEATURE_AMP : ℝ := 40

def MEDIUM_FEATURE_FREQ : ℝ := 5

def MEDIUM_FEATURE_LNG_FREQ : ℝ := 5

def MEDIUM_FEATURE_AMP : ℝ := 20

def DETAIL_FREQ : ℝ := 3

def DETAIL_AMP : ℝ := 15

def FINE_DETAIL_LAT_FREQ : ℝ := 13

def FINE_DETAIL_LNG_FREQ : ℝ := 11

def FINE_DETAIL_AMP : ℝ := 5

def ELEVATION_MIN : ℝ := 0

def ELEVATION_MAX : ℝ := 500

def ITEMS_PER_BLOCK_MIN : ℤ := 5

def ITEMS_PER_BLOCK_MAX : ℝ := 15

def SEED_INCREMENT : ℤ := 12345

def COORDINATE_HASH_MULT : ℝ := 1000

def HASH_INITIAL_VALUE : ℤ := 5381

def HASH_SHIFT_LEFT : ℕ := 5

def LANDMARK_PROBABILITY : ℝ := 0.1

def BUILDING_PROBABILITY : ℝ := 0.3

def LANDMARK_HEIGHT_MIN : ℝ := 30

def LANDMARK_HEIGHT_RANGE : ℝ := 40

def BUILDING_HEIGHT_MIN : ℝ := 10

def BUILDING_HEIGHT_RANGE : ℝ := 20

def TREE_HEIGHT_MIN : ℝ := 15

def TREE_HEIGHT_RANGE : ℝ := 20

def ITEM_WIDTH_MAX : ℝ := 10

def ITEM_WIDTH_OFFSET : ℝ := 5

def ITEM_DEPTH_MAX : ℝ := 10

def ITEM_DEPTH_OFFSET : ℝ := 5

def BLOCK_SIZE_M : ℝ := 1000

end CONFIG

/-! ## Data model (src/types/DataManager.ts) -/

structure Bounds where
  north : ℝ
  south : ℝ
  east : ℝ
  west : ℝ

/-- Heightfield of one tile.  `minElevation`/`maxElevation` are running
folds that start from JS `Infinity`/`-Infinity`, modelled in `EReal`. -/
structure HeightfieldData where
  width : ℕ
  height : ℕ
  minElevation : EReal
  maxElevation : EReal
  data : List ℝ

/-- The four members of the `ContextualItem.type` string union. -/
inductive ItemType where
  | building
  | tree
  | landmark
  | structure'
deriving DecidableEq

structure ContextualItem where
  id : ℝ × ℝ × ℕ
  type : ItemType
  latitude : ℝ
  longitude : ℝ
  elevation : ℝ
  height : ℝ
  width : ℝ
  depth : ℝ

structure DataBlock where
  id : ℝ × ℝ
  bounds : Bounds
  elevation : HeightfieldData
  items : List ContextualItem
  loadedAt : ℝ

/-! ## MockDataGenerator (src/utils/dataManager/MockDataGenerator.ts) -/

/-- Configuration state of a `MockDataGenerator` instance. -/
structure MockDataGenerator where
  blockSize : ℝ
  heightfieldResolution : ℕ

/-- The 32-bit signed wrap JS applies to `<<` operands and results. -/
def toInt32 (n : ℤ) : ℤ := (n + 2 ^ 31) % 2 ^ 32 - 2 ^ 31

/-- MockDataGenerator.hashCoordinates: DJB2-style mixing of the floored
scaled coordinates; each `(hash << 5)` wraps at 32 bits in JS. -/
noncomputable def hashCoordinates (lat lng : ℝ) : ℤ :=
  let latInt := ⌊lat * CONFIG.COORDINATE_HASH_MULT⌋
  let lngInt := ⌊lng * CONFIG.COORDINATE_HASH_MULT⌋
  let h0 := CONFIG.HASH_INITIAL_VALUE
  let h1 := toInt32 (toInt32 h0 * 2 ^ CONFIG.HASH_SHIFT_LEFT) + h0 + latInt
  let h2 := toInt32 (toInt32 h1 * 2 ^ CONFIG.HASH_SHIFT_LEFT) + h1 + lngInt
  |h2|

/-- MockDataGenerator.seededRandom: `frac(sin(seed) * 10000)`. -/
noncomputable def seededRandom (seed : ℝ) : ℝ :=
  Real.sin seed * 10000 - ⌊Real.sin seed * 10000⌋

/-- MockDataGenerator.calculateBounds. -/
noncomputable def calculateBounds (g : MockDataGenerator) (blockLat blockLng : ℝ) : Bounds :=
  let latOffsetDeg := g.blockSize / 2 / CONFIG.METERS_PER_DEGREE_LAT
  let lngOffsetDeg :=
    g.blockSize / 2 /
      (CONFIG.METERS_PER_DEGREE_LNG * Real.cos (blockLat * π / 180))
  { north := blockLat + latOffsetDeg
    south := blockLat - latOffsetDeg
    east := blockLng + lngOffsetDeg
    west := blockLng - lngOffsetDeg }

/-- MockDataGenerator.perlinLike: the multi-octave sinusoidal noise,
clamped to `[ELEVATION_MIN, ELEVATION_MAX]` at the end. -/
noncomputable def perlinLike (lat lng blockLat blockLng : ℝ) : ℝ :=
  let baseElevation :=
    CONFIG.BASE_ELEVATION_OFFSET +
      Real.sin (blockLat * CONFIG.BASE_ELEVATION_LAT_FREQ) * CONFIG.BASE_ELEVATION_LAT_AMP +
      Real.cos (blockLng * CONFIG.BASE_ELEVATION_LNG_FREQ) * CONFIG.BASE_ELEVATION_LNG_AMP
  let hills1 :=
    Real.sin (lat * CONFIG.HILL_LAT_FREQ) * Real.cos (lng * CONFIG.HILL_LNG_FREQ) *
      CONFIG.HILL_AMP
  let hills2 := Real.sin ((lat + lng) * CONFIG.FEATURE_LAT_LNG_FREQ) * CONFIG.FEATURE_AMP
  let features1 :=
    Real.sin (lat * CONFIG.MEDIUM_FEATURE_FREQ) * Real.cos (lng * CONFIG.MEDIUM_FEATURE_LNG_FREQ) *
      CONFIG.MEDIUM_FEATURE_AMP
  let features2 := Real.sin ((lat - lng) * CONFIG.DETAIL_FREQ) * CONFIG.DETAIL_AMP
  let details :=
    Real.sin (lat * CONFIG.FINE_DETAIL_LAT_FREQ) * Real.cos (lng * CONFIG.FINE_DETAIL_LNG_FREQ) *
      CONFIG.FINE_DETAIL_AMP
  let totalElevation := baseElevation + hills1 + hills2 + features1 + features2 + details
  max CONFIG.ELEVATION_MIN (min CONFIG.ELEVATION_MAX totalElevation)

/-- MockDataGenerator.generateElevationData: a `resolution × resolution`
row-major grid of `perlinLike` samples, with running min/max folds that
start from `Infinity`/`-Infinity`. -/
noncomputable def generateElevationData (g : MockDataGenerator) (blockLat blockLng : ℝ) :
    HeightfieldData :=
  let resolution := g.heightfieldResolution
  let bounds := calculateBounds g blockLat blockLng
  let latStep := (bounds.north - bounds.south) / resolution
  let lngStep := (bounds.east - bounds.west) / resolution
  let data := (List.range resolution).flatMap fun row =>
    (List.range resolution).map fun col =>
      perlinLike (bounds.south + (row : ℝ) * latStep) (bounds.west + (col : ℝ) * lngStep)
        blockLat blockLng
  { width := resolution
    height := resolution
    minElevation := data.foldl (fun m e => min m (e : EReal)) ⊤
    maxElevation := data.foldl (fun m e => max m (e : EReal)) ⊥
    data := data }

/-- MockDataGenerator.getElevationAtLatLng: nearest-sample lookup, with
coordinates clamped to `[0, 1]` and `data[index] || 0` out-of-range
defaulting. -/
noncomputable def getElevationAtLatLng (lat lng : ℝ) (elevation : HeightfieldData)
    (bounds : Bounds) : ℝ :=
  let x := (lng - bounds.west) / (bounds.east - bounds.west)
  let y := (lat - bounds.south) / (bounds.north - bounds.south)
  let clampedX := max 0 (min 1 x)
  let clampedY := max 0 (min 1 y)
  let col := ⌊clampedX * ((elevation.width : ℝ) - 1)⌋
  let row := ⌊clampedY * ((elevation.height : ℝ) - 1)⌋
  let index := row * (elevation.width : ℤ) + col
  if 0 ≤ index then elevation.data.getD index.toNat 0 else 0

/-- The item count the source computes:
`ITEMS_PER_BLOCK_MIN + Math.floor(seededRandom(seed) * ITEMS_PER_BLOCK_MAX)`
(the multiplier is the raw `ITEMS_PER_BLOCK_MAX`, not the min-to-max
range). -/
noncomputable def numItemsOfRand (r : ℝ) : ℤ :=
  CONFIG.ITEMS_PER_BLOCK_MIN + ⌊r * CONFIG.ITEMS_PER_BLOCK_MAX⌋

/-- Modelled from the spec: the item-count formula the spec states,
`min + floor(seededRandom(seed) * range)` "using the configured per-tile
min/max", i.e. with `range = max - min`.  Kept beside `numItemsOfRand`
(the source's formula) for comparison. -/
noncomputable def claimedItemCount (r : ℝ) : ℤ :=
  CONFIG.ITEMS_PER_BLOCK_MIN +
    ⌊r * (CONFIG.ITEMS_PER_BLOCK_MAX - (CONFIG.ITEMS_PER_BLOCK_MIN : ℝ))⌋

/-- Body of the per-item loop of
MockDataGenerator.generateContextualItems. -/
noncomputable def genItem (blockLat blockLng : ℝ) (elevation : HeightfieldData)
    (seed : ℤ) (bounds : Bounds) (i : ℕ) : ContextualItem :=
  let itemSeed : ℤ := seed + (i : ℤ) * CONFIG.SEED_INCREMENT
  let itemLat := bounds.south + seededRandom (itemSeed : ℝ) * (bounds.north - bounds.south)
  let itemLng := bounds.west + seededRandom ((itemSeed : ℝ) + 1) * (bounds.east - bounds.west)
  let itemElevation := getElevationAtLatLng itemLat itemLng elevation bounds
  let typeRandom := seededRandom ((itemSeed : ℝ) + 2)
  { id := (blockLat, blockLng, i)
    type :=
      if typeRandom < CONFIG.LANDMARK_PROBABILITY then ItemType.landmark
      else if typeRandom < CONFIG.BUILDING_PROBABILITY then ItemType.building
      else ItemType.tree
    latitude := itemLat
    longitude := itemLng
    elevation := itemElevation
    height :=
      if typeRandom < CONFIG.LANDMARK_PROBABILITY then
        CONFIG.LANDMARK_HEIGHT_MIN + seededRandom ((itemSeed : ℝ) + 3) * CONFIG.LANDMARK_HEIGHT_RANGE
      else if typeRandom < CONFIG.BUILDING_PROBABILITY then
        CONFIG.BUILDING_HEIGHT_MIN + seededRandom ((itemSeed : ℝ) + 3) * CONFIG.BUILDING_HEIGHT_RANGE
      else
        CONFIG.TREE_HEIGHT_MIN + seededRandom ((itemSeed : ℝ) + 3) * CONFIG.TREE_HEIGHT_RANGE
    width := seededRandom ((itemSeed : ℝ) + 4) * CONFIG.ITEM_WIDTH_MAX + CONFIG.ITEM_WIDTH_OFFSET
    depth := seededRandom ((itemSeed : ℝ) + 5) * CONFIG.ITEM_DEPTH_MAX + CONFIG.ITEM_DEPTH_OFFSET }

/-- MockDataGenerator.generateContextualItems. -/
noncomputable def generateContextualItems (g : MockDataGenerator) (blockLat blockLng : ℝ)
    (elevation : HeightfieldData) : List ContextualItem :=
  let seed := hashCoordinates blockLat blockLng
  let bounds := calculateBounds g blockLat blockLng
  let numItems := numItemsOfRand (seededRandom (seed : ℝ))
  (List.range numItems.toNat).map (genItem blockLat blockLng elevation seed bounds)

/-- MockDataGenerator.generateBlock.  `now` is the `Date.now()` reading
stored into `loadedAt`; every other field is a pure function of the grid
coordinate and the configuration. -/
noncomputable def generateBlock (g : MockDataGenerator) (now blockLat blockLng : ℝ) : DataBlock :=
  { id := (blockLat, blockLng)
    bounds := calculateBounds g blockLat blockLng
    elevation := generateElevationData g blockLat blockLng
    items := generateContextualItems g blockLat blockLng (generateElevationData g blockLat blockLng)
    loadedAt := now }

/-! ## Projection utility (src/utils/3dviewer/utils/MercatorConverter.ts)

`MercatorConverter.latLngToMeters` delegates to `@turf/projection`'s
`toMercator`, an external dependency whose source is not part of this
repository. -/

/-- Modelled from the spec: the forward projection of §4.1, "a standard
conforming conformal (e.g., spherical Mercator) projection"; this is the
x coordinate of spherical Web Mercator (earth radius 6378137 m) that
`@turf/projection.toMercator` computes, `x = R · lng · π/180`. -/
noncomputable def mercX (lng : ℝ) : ℝ := 6378137 * (lng * (π / 180))

/-- Modelled from the spec: the y coordinate of the spherical Web
Mercator projection of §4.1 that `@turf/projection.toMercator` computes,
`y = R · log(tan(π/4 + lat · π/360))`. -/
noncomputable def mercY (lat : ℝ) : ℝ :=
  6378137 * Real.log (Real.tan (π / 4 + lat * (π / 360)))

/-- MercatorConverter.latLngToMeters (via the spec-modelled projection). -/
noncomputable def latLngToMeters (lat lng : ℝ) : ℝ × ℝ := (mercX lng, mercY lat)

/-- MercatorConverter.distanceInMeters: Euclidean distance between the
projected points. -/
noncomputable def distanceInMeters (lat1 lng1 lat2 lng2 : ℝ) : ℝ :=
  let dx := (latLngToMeters lat2 lng2).1 - (latLngToMeters lat1 lng1).1
  let dy := (latLngToMeters lat2 lng2).2 - (latLngToMeters lat1 lng1).2
  Real.sqrt (dx * dx + dy * dy)

/-- MercatorConverter.metersPerDegreeAtLatitude: the absolute difference
of the projected x coordinates of `(latitude, 0)` and `(latitude, 1)`. -/
noncomputable def metersPerDegreeAtLatitude (lat : ℝ) : ℝ :=
  |(latLngToMeters lat 1).1 - (latLngToMeters lat 0).1|

/-! ## DataManager (src/utils/dataManager/DataManager.ts) -/

/-- DataManager.distanceBetweenCoords: projected distance in km. -/
noncomputable def distanceBetweenCoords (lat1 lng1 lat2 lng2 : ℝ) : ℝ :=
  distanceInMeters lat1 lng1 lat2 lng2 / 1000

/-- The `DataChangeEvent.type` union. -/
inductive EvType where
  | load
  | unload
  | update
deriving DecidableEq

structure DataChangeEvent where
  type : EvType
  blocks : List DataBlock

/-- Constructor options (src/types/DataManager.ts `DataManagerOptions`). -/
structure DataManagerOptions where
  blockSize : Option ℝ := none
  loadRadius : Option ℝ := none
  unloadDistance : Option ℝ := none
  heightfieldResolution : Option ℕ := none

/-- JS `options.x || d`: the default is taken when the option is absent
or `0` (the only falsy number a real can model). -/
noncomputable def jsOr (o : Option ℝ) (d : ℝ) : ℝ :=
  match o with
  | none => d
  | some x => if x = 0 then d else x

/-- JS `options.x || d` for the integer-valued resolution option. -/
def jsOrNat (o : Option ℕ) (d : ℕ) : ℕ :=
  match o with
  | none => d
  | some x => if x = 0 then d else x

/-- MockDataGenerator's constructor: `options.blockSize ||
CONFIG.DATA_MANAGEMENT.BLOCK_SIZE_M` and `options.heightfieldResolution
|| 32`.  No validation is performed. -/
noncomputable def mkGenerator (o : DataManagerOptions) : MockDataGenerator :=
  { blockSize := jsOr o.blockSize CONFIG.BLOCK_SIZE_M
    heightfieldResolution := jsOrNat o.heightfieldResolution 32 }

/-- Mutable state of a `DataManager` instance. -/
structure DataManagerState where
  cache : List DataBlock
  lastDronePosition : Option (ℝ × ℝ)
  blockSize : ℝ
  loadRadius : ℝ
  unloadDistance : ℝ
  gen : MockDataGenerator

/-- DataManager's constructor: `options.blockSize || 1`,
`options.loadRadius || 2`, `options.unloadDistance || 2.5`, an empty
cache and no last position.  The source contains no validation and no
throw: construction is a total function. -/
noncomputable def mkDataManager (o : DataManagerOptions) : DataManagerState :=
  { cache := []
    lastDronePosition := none
    blockSize := jsOr o.blockSize 1
    loadRadius := jsOr o.loadRadius 2
    unloadDistance := jsOr o.unloadDistance 2.5
    gen := mkGenerator o }

/-- DataBlockCache.has. -/
noncomputable def cacheHas (c : List DataBlock) (id : ℝ × ℝ) : Bool :=
  c.any fun b => decide (b.id = id)

/-- DataBlockCache.set (JS `Map.set`): replace the entry with the same
key in place, else append. -/
noncomputable def cacheSet (c : List DataBlock) (b : DataBlock) : List DataBlock :=
  if c.any (fun x => decide (x.id = b.id)) then
    c.map fun x => if x.id = b.id then b else x
  else c ++ [b]

/-- DataBlockCache.delete (JS `Map.delete`): drop the entry with the
key, keeping the order of the rest. -/
noncomputable def cacheDelete (c : List DataBlock) (id : ℝ × ℝ) : List DataBlock :=
  c.filter fun b => !(decide (b.id = id))

/-- DataManager.getLoadedBlocks (= DataBlockCache.getAll). -/
def getLoadedBlocks (s : DataManagerState) : List DataBlock := s.cache

/-- JS `Math.round`: round half up. -/
noncomputable def jsRound (x : ℝ) : ℤ := ⌊x + 1 / 2⌋

/-- The integers from `lo` to `hi` inclusive (the `for` loops of
`getBlocksInRadius`); empty when `hi < lo`. -/
def intRange (lo hi : ℤ) : List ℤ :=
  (List.range (hi + 1 - lo).toNat).map fun k => lo + (k : ℤ)

/-- DataManager.getBlocksInRadius: scan the `(2·blocksPerSide + 1)²`
grid of candidate coordinates around the rounded centre and keep those
within `radiusKm` of the centre (block ids modelled as coordinate
pairs). -/
noncomputable def getBlocksInRadius (s : DataManagerState) (centerLat centerLng radiusKm : ℝ) :
    List (ℝ × ℝ) :=
  let blocksPerSide : ℤ := ⌈radiusKm / s.blockSize⌉ + 1
  let offs := intRange (-blocksPerSide) blocksPerSide
  offs.flatMap fun latOffset : ℤ =>
    offs.filterMap fun lngOffset : ℤ =>
      let blockLat := (jsRound (centerLat / s.blockSize) : ℝ) * s.blockSize +
        (latOffset : ℝ) * s.blockSize
      let blockLng := (jsRound (centerLng / s.blockSize) : ℝ) * s.blockSize +
        (lngOffset : ℝ) * s.blockSize
      if distanceBetweenCoords centerLat centerLng blockLat blockLng ≤ radiusKm then
        some (blockLat, blockLng)
      else none

/-- DataManager.getBlockCenter. -/
noncomputable def blockCenter (b : Bounds) : ℝ × ℝ :=
  ((b.north + b.south) / 2, (b.east + b.west) / 2)

/-- The load half of `updateDronePosition` (`loadBlocks` inlined):
returns the cache after all insertions together with the list of newly
generated blocks, in load order. -/
noncomputable def loadPhase (s : DataManagerState) (lat lng now : ℝ) :
    List DataBlock × List DataBlock :=
  let blocksToLoad := getBlocksInRadius s lat lng s.loadRadius
  let newKeys := blocksToLoad.filter fun k => !(cacheHas s.cache k)
  let loaded := newKeys.map fun k => generateBlock s.gen now k.1 k.2
  (loaded.foldl cacheSet s.cache, loaded)

/-- The blocks `updateDronePosition` selects for unloading: cached
blocks whose centre is farther than `unloadDistance` from the drone. -/
noncomputable def unloadSet (s : DataManagerState) (cache1 : List DataBlock) (lat lng : ℝ) :
    List DataBlock :=
  cache1.filter fun b =>
    decide (s.unloadDistance <
      distanceBetweenCoords lat lng (blockCenter b.bounds).1 (blockCenter b.bounds).2)

/-- The body of `updateDronePosition` past the debounce check.  The
returned trace lists each emitted `DataChangeEvent` with the cache
contents at the moment the listeners run: insertions happen before the
"load" notification, removals happen after it and before the "unload"
notification. -/
noncomputable def processUpdate (s : DataManagerState) (lat lng now : ℝ) :
    DataManagerState × List (DataChangeEvent × List DataBlock) :=
  let lp := loadPhase s lat lng now
  let toUnload := unloadSet s lp.1 lat lng
  let cache2 := toUnload.foldl (fun c b => cacheDelete c b.id) lp.1
  ({ s with cache := cache2, lastDronePosition := some (lat, lng) },
    (if lp.2.isEmpty then [] else [(⟨EvType.load, lp.2⟩, lp.1)]) ++
      (if toUnload.isEmpty then [] else [(⟨EvType.unload, toUnload⟩, cache2)]))

/-- DataManager.updateDronePosition: debounced entry point.  A call less
than 0.1 km from the last processed position returns before touching any
state and notifies nobody. -/
noncomputable def updateDronePosition (s : DataManagerState) (lat lng now : ℝ) :
    DataManagerState × List (DataChangeEvent × List DataBlock) :=
  match s.lastDronePosition with
  | some p =>
    if distanceBetweenCoords p.1 p.2 lat lng < 0.1 then (s, [])
    else processUpdate s lat lng now
  | none => processUpdate s lat lng now

/-- One position-update step, for folding call sequences. -/
noncomputable def applyUpdate (s : DataManagerState) (c : ℝ × ℝ × ℝ) : DataManagerState :=
  (updateDronePosition s c.1 c.2.1 c.2.2).1

/-! ## Concrete states used by the witnesses and counterexamples -/

/-- Generator with a one-sample heightfield, for concrete witnesses. -/
noncomputable def sampleGen : MockDataGenerator := { blockSize := 1000, heightfieldResolution := 1 }

/-- The single elevation sample `sampleGen` produces for tile (0, 0). -/
noncomputable def sampleElevation : ℝ :=
  perlinLike (calculateBounds sampleGen 0 0).south (calculateBounds sampleGen 0 0).west 0 0

/-- An empty heightfield, for witnesses that only exercise item
generation. -/
def sampleHeightfield : HeightfieldData := ⟨0, 0, ⊤, ⊥, []⟩

/-- The first contextual item of tile (0, 0) under `sampleGen`. -/
noncomputable def sampleItem : ContextualItem :=
  genItem 0 0 sampleHeightfield (hashCoordinates 0 0) (calculateBounds sampleGen 0 0) 0

/-- A manager in the state reached after one processed update at (0, 0):
last position recorded, used by the debounce witness. -/
noncomputable def debounceState : DataManagerState :=
  { mkDataManager {} with lastDronePosition := some (0, 0) }

/-- Options with `unloadDistance < loadRadius` and `resolution ≤ 1`,
which the spec says construction should reject. -/
def badOptions : DataManagerOptions :=
  { blockSize := none
    loadRadius := some 2
    unloadDistance := some 1
    heightfieldResolution := some 1 }

/-- The block generated for tile (0, 0) on the first scenario update
(`Date.now()` reading 0), under the default generator. -/
noncomputable def blockA : DataBlock := generateBlock ⟨1000, 32⟩ 0 0 0

/-- The block generated for tile (0, 10) on the second scenario update
(`Date.now()` reading 1). -/
noncomputable def blockB : DataBlock := generateBlock ⟨1000, 32⟩ 1 0 10

/-- Manager state after `updateDronePosition(0, 0)` on a fresh default
manager: one resident block, tile (0, 0). -/
noncomputable def stateAfterFirst : DataManagerState :=
  ⟨[blockA], some (0, 0), 1, 2, 2.5, ⟨1000, 32⟩⟩

/-- Manager state after the further `updateDronePosition(0, 10)`: tile
(0, 0) evicted, tile (0, 10) resident. -/
noncomputable def stateAfterSecond : DataManagerState :=
  ⟨[blockB], some (0, 10), 1, 2, 2.5, ⟨1000, 32⟩⟩

/-! ## Basic lemmas -/

theorem seededRandom_nonneg (s : ℝ) : 0 ≤ seededRandom s := by
  unfold seededRandom
  have h := Int.floor_le (Real.sin s * 10000)
  linarith

theorem seededRandom_lt_one (s : ℝ) : seededRandom s < 1 := by
  unfold seededRandom
  have h := Int.lt_floor_add_one (Real.sin s * 10000)
  linarith

theorem numItemsOfRand_ge_five (r : ℝ) (hr : 0 ≤ r) : 5 ≤ numItemsOfRand r := by
  unfold numItemsOfRand CONFIG.ITEMS_PER_BLOCK_MIN
  have h : (0 : ℤ) ≤ ⌊r * CONFIG.ITEMS_PER_BLOCK_MAX⌋ :=
    Int.floor_nonneg.mpr (mul_nonneg hr (by norm_num [CONFIG.ITEMS_PER_BLOCK_MAX]))
  linarith

/-! ## Claim theorems: the procedural generator -/

/-- C1.  Determinism of the generator: for a fixed configuration and a
fixed grid coordinate, two calls to `generateBlock` (each with its own
`Date.now()` reading, the only impure input) return the same id, the
same bounds, the same heightfield (width, height, min/max metadata and
the full sample list) and the same ordered item list, item ids included.
All fields of the embedded `generateBlock` other than `loadedAt` are
pure functions of `(g, blockLat, blockLng)`, so the equalities hold
definitionally. -/
theorem generateBlock_deterministic :
    ∀ (g : MockDataGenerator) (t1 t2 blockLat blockLng : ℝ),
      (generateBlock g t1 blockLat blockLng).elevation =
          (generateBlock g t2 blockLat blockLng).elevation ∧
        (generateBlock g t1 blockLat blockLng).items =
          (generateBlock g t2 blockLat blockLng).items ∧
        (generateBlock g t1 blockLat blockLng).id =
          (generateBlock g t2 blockLat blockLng).id ∧
        (generateBlock g t1 blockLat blockLng).bounds =
          (generateBlock g t2 blockLat blockLng).bounds :=
  fun _ _ _ _ _ => ⟨rfl, rfl, rfl, rfl⟩

/-- C7.  Elevation clamp: every sample of every generated heightfield
lies in the configured clamp range `[ELEVATION_MIN, ELEVATION_MAX]` =
`[0, 500]`, because `perlinLike` ends in
`Math.max(ELEVATION_MIN, Math.min(ELEVATION_MAX, total))`. -/
theorem elevation_samples_clamped :
    ∀ (g : MockDataGenerator) (blockLat blockLng : ℝ) (e : ℝ),
      e ∈ (generateElevationData g blockLat blockLng).data → 0 ≤ e ∧ e ≤ 500 := by
  intro g blockLat blockLng e he
  simp only [generateElevationData, List.mem_flatMap, List.mem_map] at he
  obtain ⟨row, _, col, _, hcol⟩ := he
  rw [← hcol]
  unfold perlinLike
  refine ⟨?_, ?_⟩
  · simp only [CONFIG.ELEVATION_MIN] at *
    exact le_max_left 0 _
  · exact max_le (by norm_num [CONFIG.ELEVATION_MIN])
      (le_trans (min_le_left _ _) (by norm_num [CONFIG.ELEVATION_MAX]))

/-- Witness for C7 at a concrete input: the generator with resolution 1
produces the one-sample heightfield `[sampleElevation]` for tile (0, 0),
and that sample is within `[0, 500]` by `elevation_samples_clamped`. -/
theorem elevation_samples_clamped_witness :
    sampleElevation ∈ (generateElevationData sampleGen 0 0).data ∧
      0 ≤ sampleElevation ∧ sampleElevation ≤ 500 := by
  have hm : sampleElevation ∈ (generateElevationData sampleGen 0 0).data := by
    simp [generateElevationData, sampleGen, sampleElevation]
  exact ⟨hm, elevation_samples_clamped sampleGen 0 0 sampleElevation hm⟩

/-- C10.  The generator's classification assigns only `landmark`,
`building` or `tree`: no generated item ever has type `structure`
(`ItemType.structure'` here), although the `ContextualItem` type union
declares it. -/
theorem no_structure_items :
    ∀ (g : MockDataGenerator) (blockLat blockLng : ℝ) (hf : HeightfieldData)
      (item : ContextualItem),
      item ∈ generateContextualItems g blockLat blockLng hf →
        item.type ≠ ItemType.structure' := by
  intro g blockLat blockLng hf item hm
  simp only [generateContextualItems, List.mem_map] at hm
  obtain ⟨i, _, hi⟩ := hm
  rw [← hi]
  unfold genItem
  simp only
  split_ifs <;> simp

/-- Witness for C10 at a concrete input: tile (0, 0) generates at least
`ITEMS_PER_BLOCK_MIN = 5` items, so its item 0 exists, and by
`no_structure_items` its type is not `structure`. -/
theorem no_structure_items_witness :
    sampleItem ∈ generateContextualItems sampleGen 0 0 sampleHeightfield ∧
      sampleItem.type ≠ ItemType.structure' := by
  have h5 : (5 : ℤ) ≤ numItemsOfRand (seededRandom ((hashCoordinates 0 0 : ℤ) : ℝ)) :=
    numItemsOfRand_ge_five _ (seededRandom_nonneg _)
  have hmem : sampleItem ∈ generateContextualItems sampleGen 0 0 sampleHeightfield := by
    unfold generateContextualItems sampleItem
    exact List.mem_map.mpr ⟨0, List.mem_range.mpr (by omega), rfl⟩
  exact ⟨hmem, no_structure_items sampleGen 0 0 sampleHeightfield sampleItem hmem⟩

/-- C5 (supporting theorem for the item-count bug).  The number of items
generated for a tile is `ITEMS_PER_BLOCK_MIN +
floor(seededRandom(seed) · ITEMS_PER_BLOCK_MAX)` — the multiplier is the
raw maximum 15, not the range `max - min` the spec states — and there
are draw values `r ∈ [0, 1)` (e.g. 19/20) for which this count is 19,
outside the claimed inclusive range `[5, 15]`, while the spec's formula
`claimedItemCount` yields 14. -/
theorem itemCount_uses_max_not_range :
    (∀ (g : MockDataGenerator) (blockLat blockLng : ℝ) (hf : HeightfieldData),
        (generateContextualItems g blockLat blockLng hf).length =
          (numItemsOfRand (seededRandom ((hashCoordinates blockLat blockLng : ℤ) : ℝ))).toNat) ∧
      ∃ r : ℝ, 0 ≤ r ∧ r < 1 ∧ numItemsOfRand r = 19 ∧ 15 < numItemsOfRand r ∧
        claimedItemCount r = 14 := by
  constructor
  · intro g blockLat blockLng hf
    simp [generateContextualItems]
  · refine ⟨19 / 20, by norm_num, by norm_num, ?_, ?_, ?_⟩
    · have h : ⌊(19 / 20 : ℝ) * CONFIG.ITEMS_PER_BLOCK_MAX⌋ = 14 :=
        Int.floor_eq_iff.mpr ⟨by norm_num [CONFIG.ITEMS_PER_BLOCK_MAX],
          by norm_num [CONFIG.ITEMS_PER_BLOCK_MAX]⟩
      unfold numItemsOfRand
      rw [h]
      norm_num [CONFIG.ITEMS_PER_BLOCK_MIN]
    · have h : ⌊(19 / 20 : ℝ) * CONFIG.ITEMS_PER_BLOCK_MAX⌋ = 14 :=
        Int.floor_eq_iff.mpr ⟨by norm_num [CONFIG.ITEMS_PER_BLOCK_MAX],
          by norm_num [CONFIG.ITEMS_PER_BLOCK_MAX]⟩
      unfold numItemsOfRand
      rw [h]
      norm_num [CONFIG.ITEMS_PER_BLOCK_MIN]
    · have h : ⌊(19 / 20 : ℝ) * (CONFIG.ITEMS_PER_BLOCK_MAX - (CONFIG.ITEMS_PER_BLOCK_MIN : ℝ))⌋
          = 9 :=
        Int.floor_eq_iff.mpr ⟨by norm_num [CONFIG.ITEMS_PER_BLOCK_MAX, CONFIG.ITEMS_PER_BLOCK_MIN],
          by norm_num [CONFIG.ITEMS_PER_BLOCK_MAX, CONFIG.ITEMS_PER_BLOCK_MIN]⟩
      unfold claimedItemCount
      rw [h]
      norm_num [CONFIG.ITEMS_PER_BLOCK_MIN]

/-! ## Claim theorems: the projection utility -/

/-- C4 (supporting theorem for the scale-factor bug).
`metersPerDegreeAtLatitude` returns the same value `6378137 · π/180`
(≈ 111319.49) at every latitude: the Mercator-projected x spacing of two
points one degree of longitude apart does not depend on latitude, so the
function is strictly positive but constant — it does not decrease as
|latitude| grows toward the poles. -/
theorem metersPerDegreeAtLatitude_constant :
    ∀ lat : ℝ, metersPerDegreeAtLatitude lat = 6378137 * (π / 180) ∧
      0 < metersPerDegreeAtLatitude lat := by
  intro lat
  have h : metersPerDegreeAtLatitude lat = 6378137 * (π / 180) := by
    unfold metersPerDegreeAtLatitude latLngToMeters mercX
    rw [show (6378137 : ℝ) * (1 * (π / 180)) - 6378137 * (0 * (π / 180)) =
      6378137 * (π / 180) from by ring]
    exact abs_of_pos (by positivity)
  refine ⟨h, ?_⟩
  rw [h]
  positivity

/-! ## Claim theorems: DataManager construction -/

/-- C6 counterexample.  Constructing a `DataManager` with
`unloadDistance = 1 < 2 = loadRadius` and `heightfieldResolution = 1`
does not fail: the source constructor contains no validation and no
`throw` (it only applies `||` defaulting), so construction is a total
function and the returned manager simply carries the invalid
configuration, with a normally initialised empty cache. -/
theorem invalid_options_accepted :
    (mkDataManager badOptions).unloadDistance < (mkDataManager badOptions).loadRadius ∧
      (mkDataManager badOptions).gen.heightfieldResolution ≤ 1 ∧
      (mkDataManager badOptions).cache = [] ∧
      (mkDataManager badOptions).lastDronePosition = none := by
  refine ⟨?_, ?_, rfl, rfl⟩
  · simp [mkDataManager, badOptions, jsOr]
  · simp [mkDataManager, mkGenerator, badOptions, jsOrNat]

/-- C6 as amended.  Construction never validates: for every option
record — the invalid ones included — `mkDataManager` succeeds, returning
a manager with an empty cache and no recorded position whose first
`updateDronePosition` call is processed normally (it records the new
position rather than failing). -/
theorem construction_never_validates :
    ∀ o : DataManagerOptions,
      (mkDataManager o).cache = [] ∧
        (mkDataManager o).lastDronePosition = none ∧
        ∀ lat lng t : ℝ,
          ((updateDronePosition (mkDataManager o) lat lng t).1).lastDronePosition =
            some (lat, lng) := by
  intro o
  refine ⟨rfl, rfl, fun lat lng t => ?_⟩
  rfl

/-! ## Distance lemmas -/

theorem distanceInMeters_self (lat lng : ℝ) : distanceInMeters lat lng lat lng = 0 := by
  unfold distanceInMeters latLngToMeters
  simp

theorem distanceBetweenCoords_self (lat lng : ℝ) : distanceBetweenCoords lat lng lat lng = 0 := by
  unfold distanceBetweenCoords
  rw [distanceInMeters_self]
  norm_num

/-! ## Claim theorems: debounce -/

/-- C8.  Debounce no-op: once some position `p` has been processed
(`lastDronePosition = some p`), a further `updateDronePosition` call
whose position is less than 0.1 km (100 m) from `p` — in particular an
identical position, at distance 0 — returns before doing anything: the
state (cache included) is unchanged and the emitted trace is empty, so
no listener is invoked. -/
theorem debounce_noop :
    ∀ (s : DataManagerState) (lat lng t : ℝ) (p : ℝ × ℝ),
      s.lastDronePosition = some p →
      distanceBetweenCoords p.1 p.2 lat lng < 0.1 →
      updateDronePosition s lat lng t = (s, []) := by
  intro s lat lng t p hp hd
  unfold updateDronePosition
  rw [hp]
  simp only [hd, if_true]

/-- Witness for C8: a manager that has processed (0, 0) and is called
again at exactly (0, 0); the projected distance is 0 < 0.1, and the call
returns the state unchanged with no notifications. -/
theorem debounce_noop_witness :
    distanceBetweenCoords 0 0 0 0 < 0.1 ∧
      updateDronePosition debounceState 0 0 7 = (debounceState, []) := by
  have hd : distanceBetweenCoords 0 0 0 0 < 0.1 := by
    rw [distanceBetweenCoords_self]
    norm_num
  exact ⟨hd, debounce_noop debounceState 0 0 7 (0, 0) rfl hd⟩

/-! ## Cache-uniqueness lemmas -/

theorem cacheSet_ids_nodup (c : List DataBlock) (b : DataBlock)
    (h : (c.map (fun x => x.id)).Nodup) : ((cacheSet c b).map (fun x => x.id)).Nodup := by
  unfold cacheSet
  by_cases hany : c.any (fun x => decide (x.id = b.id)) = true
  · rw [if_pos hany]
    have heq : ((c.map fun x => if x.id = b.id then b else x).map fun x => x.id) =
        c.map fun x => x.id := by
      rw [List.map_map]
      refine List.map_congr_left ?_
      intro x _
      simp only [Function.comp]
      split_ifs with hid
      · rw [hid]
      · rfl
    rw [heq]
    exact h
  · rw [if_neg hany]
    simp only [List.any_eq_true, decide_eq_true_eq, not_exists, not_and] at hany
    rw [List.map_append]
    refine List.nodup_append.mpr ⟨h, List.nodup_singleton _, ?_⟩
    intro a ha hb
    simp only [List.map_cons, List.map_nil, List.mem_singleton] at hb
    obtain ⟨x, hx, hxa⟩ := List.mem_map.mp ha
    exact hany x hx (by rw [hxa, hb])

theorem cacheDelete_ids_nodup (c : List DataBlock) (id : ℝ × ℝ)
    (h : (c.map (fun x => x.id)).Nodup) : ((cacheDelete c id).map (fun x => x.id)).Nodup :=
  List.Nodup.sublist (List.Sublist.map _ (List.filter_sublist c)) h

theorem foldl_cacheSet_ids_nodup (l : List DataBlock) (c : List DataBlock)
    (h : (c.map (fun x => x.id)).Nodup) :
    ((l.foldl cacheSet c).map (fun x => x.id)).Nodup := by
  induction l generalizing c with
  | nil => exact h
  | cons b l ih => exact ih _ (cacheSet_ids_nodup c b h)

theorem foldl_cacheDelete_ids_nodup (l : List DataBlock) (c : List DataBlock)
    (h : (c.map (fun x => x.id)).Nodup) :
    ((l.foldl (fun c b => cacheDelete c b.id) c).map (fun x => x.id)).Nodup := by
  induction l generalizing c with
  | nil => exact h
  | cons b l ih => exact ih _ (cacheDelete_ids_nodup c b.id h)

theorem processUpdate_ids_nodup (s : DataManagerState) (lat lng t : ℝ)
    (h : (s.cache.map (fun x => x.id)).Nodup) :
    (((processUpdate s lat lng t).1.cache).map (fun x => x.id)).Nodup := by
  unfold processUpdate loadPhase
  exact foldl_cacheDelete_ids_nodup _ _ (foldl_cacheSet_ids_nodup _ _ h)

theorem updateDronePosition_ids_nodup (s : DataManagerState) (lat lng t : ℝ)
    (h : (s.cache.map (fun x => x.id)).Nodup) :
    (((updateDronePosition s lat lng t).1.cache).map (fun x => x.id)).Nodup := by
  unfold updateDronePosition
  split
  · split_ifs
    · exact h
    · exact processUpdate_ids_nodup s lat lng t h
  · exact processUpdate_ids_nodup s lat lng t h

/-! ## Claim theorems: cache key uniqueness -/

/-- C9.  Cache key uniqueness: starting from a freshly constructed
manager and applying any sequence of `updateDronePosition` calls, no
block id (tile key) appears twice in `getLoadedBlocks()`.  The cache is
a JS `Map` keyed by id — `set` replaces or appends, `delete` filters —
so key distinctness is invariant under every update. -/
theorem cache_ids_nodup :
    ∀ (o : DataManagerOptions) (calls : List (ℝ × ℝ × ℝ)),
      ((getLoadedBlocks (calls.foldl applyUpdate (mkDataManager o))).map
        (fun x => x.id)).Nodup := by
  intro o calls
  have key : ∀ (l : List (ℝ × ℝ × ℝ)) (s : DataManagerState),
      (s.cache.map (fun x => x.id)).Nodup →
      (((l.foldl applyUpdate s).cache).map (fun x => x.id)).Nodup := by
    intro l
    induction l with
    | nil => exact fun s h => h
    | cons c l ih =>
      intro s h
      exact ih _ (updateDronePosition_ids_nodup s c.1 c.2.1 c.2.2 h)
  exact key calls (mkDataManager o) (by simp [mkDataManager])

/-! ## Lower bounds on projected distances

Grid candidates produced by `getBlocksInRadius` sit at integer-degree
coordinates; one degree is far more than the 2–2.5 km radii, which the
following bounds make precise. -/

theorem abs_dx_le_dist (lat1 lng1 lat2 lng2 : ℝ) :
    |mercX lng2 - mercX lng1| ≤ distanceInMeters lat1 lng1 lat2 lng2 := by
  unfold distanceInMeters latLngToMeters
  simp only
  rw [← Real.sqrt_mul_self_eq_abs (mercX lng2 - mercX lng1)]
  apply Real.sqrt_le_sqrt
  nlinarith [mul_self_nonneg (mercY lat2 - mercY lat1)]

theorem abs_dy_le_dist (lat1 lng1 lat2 lng2 : ℝ) :
    |mercY lat2 - mercY lat1| ≤ distanceInMeters lat1 lng1 lat2 lng2 := by
  unfold distanceInMeters latLngToMeters
  simp only
  rw [← Real.sqrt_mul_self_eq_abs (mercY lat2 - mercY lat1)]
  apply Real.sqrt_le_sqrt
  nlinarith [mul_self_nonneg (mercX lng2 - mercX lng1)]

/-- Two points at least one degree of longitude apart are more than 5 km
apart in projected distance (in fact over 111 km). -/
theorem far_lng (lat1 lng1 lat2 lng2 : ℝ) (h : 1 ≤ |lng2 - lng1|) :
    5 < distanceBetweenCoords lat1 lng1 lat2 lng2 := by
  have hpi : 3 < π := Real.pi_gt_three
  have h1 := abs_dx_le_dist lat1 lng1 lat2 lng2
  have h2 : |mercX lng2 - mercX lng1| = 6378137 * (|lng2 - lng1| * (π / 180)) := by
    unfold mercX
    rw [show (6378137 : ℝ) * (lng2 * (π / 180)) - 6378137 * (lng1 * (π / 180)) =
      6378137 * ((lng2 - lng1) * (π / 180)) from by ring]
    rw [abs_mul, abs_mul]
    rw [abs_of_pos (show (0 : ℝ) < 6378137 by norm_num),
      abs_of_pos (show (0 : ℝ) < π / 180 by positivity)]
  have h3 : 6378137 * (1 * (3 / 180)) ≤ 6378137 * (|lng2 - lng1| * (π / 180)) := by
    have hx : (1 : ℝ) * (3 / 180) ≤ |lng2 - lng1| * (π / 180) :=
      mul_le_mul h (by linarith) (by norm_num) (abs_nonneg _)
    nlinarith
  unfold distanceBetweenCoords
  rw [lt_div_iff (show (0 : ℝ) < 1000 by norm_num)]
  calc (5 : ℝ) * 1000 < 6378137 * (1 * (3 / 180)) := by norm_num
  _ ≤ 6378137 * (|lng2 - lng1| * (π / 180)) := h3
  _ = |mercX lng2 - mercX lng1| := h2.symm
  _ ≤ distanceInMeters lat1 lng1 lat2 lng2 := h1

/-- Core inequality for the Mercator y coordinate: for `0 < x ≤ 1/2`,
`log (tan (π/4 + x)) ≥ x`. -/
theorem log_tan_lower (x : ℝ) (hx0 : 0 < x) (hx : x ≤ 1 / 2) :
    x ≤ Real.log (Real.tan (π / 4 + x)) := by
  have hpi3 : 3 < π := Real.pi_gt_three
  have hpi4 : π < 4 := Real.pi_lt_four
  have hx4 : x < π / 4 := by linarith
  have hcx : 0 < Real.cos x := Real.cos_pos_of_mem_Ioo ⟨by linarith, by linarith⟩
  have hsx : 0 ≤ Real.sin x := Real.sin_nonneg_of_nonneg_of_le_pi (le_of_lt hx0) (by linarith)
  have htanx : x < Real.tan x := Real.lt_tan hx0 (by linarith)
  have hxs : x * Real.cos x < Real.sin x := by
    rw [Real.tan_eq_sin_div_cos] at htanx
    calc x * Real.cos x < Real.sin x / Real.cos x * Real.cos x :=
          mul_lt_mul_of_pos_right htanx hcx
    _ = Real.sin x := by field_simp
  have htan1 : Real.tan x < 1 := by
    have ht := Real.tan_lt_tan_of_lt_of_lt_pi_div_two (by linarith) (by linarith) hx4
    rwa [Real.tan_pi_div_four] at ht
  have hsc : Real.sin x < Real.cos x := by
    rw [Real.tan_eq_sin_div_cos] at htan1
    have := (div_lt_one hcx).mp htan1
    linarith
  have hden : 0 < Real.cos x - Real.sin x := by linarith
  have hs2 : (0 : ℝ) < Real.sqrt 2 / 2 := by positivity
  have htan2 : Real.tan (π / 4 + x) = (Real.cos x + Real.sin x) / (Real.cos x - Real.sin x) := by
    rw [Real.tan_eq_sin_div_cos, Real.sin_add, Real.cos_add, Real.sin_pi_div_four,
      Real.cos_pi_div_four]
    rw [div_eq_div_iff (ne_of_gt (by nlinarith)) (ne_of_gt hden)]
    ring
  have hmain : 1 + 2 * x ≤ Real.tan (π / 4 + x) := by
    rw [htan2, le_div_iff hden]
    nlinarith [hxs, hsx, hx0.le]
  have hpos1 : (0 : ℝ) < 1 + 2 * x := by linarith
  have hlog1 : x ≤ Real.log (1 + 2 * x) := by
    have h5 := Real.log_le_sub_one_of_pos (show (0 : ℝ) < (1 + 2 * x)⁻¹ by positivity)
    rw [Real.log_inv] at h5
    have h7 : x * (1 + 2 * x) ≤ 2 * x := by nlinarith
    have h8 : x ≤ 1 - (1 + 2 * x)⁻¹ := by
      rw [inv_eq_one_div]
      have h9 : (1 : ℝ) - 1 / (1 + 2 * x) = 2 * x / (1 + 2 * x) := by field_simp
      rw [h9, le_div_iff hpos1]
      linarith
    linarith
  have hmono : Real.log (1 + 2 * x) ≤ Real.log (Real.tan (π / 4 + x)) := by
    rw [Real.log_le_log_iff hpos1 (by linarith)]
    exact hmain
  linarith

theorem mercY_zero : mercY 0 = 0 := by
  unfold mercY
  rw [show (0 : ℝ) * (π / 360) = 0 from by ring, add_zero, Real.tan_pi_div_four, Real.log_one,
    mul_zero]

theorem mercY_neg (l : ℝ) : mercY (-l) = -mercY l := by
  unfold mercY
  rw [show π / 4 + -l * (π / 360) = π / 2 - (π / 4 + l * (π / 360)) from by ring]
  rw [Real.tan_pi_div_two_sub, Real.log_inv]
  ring

theorem mercY_lower (l : ℝ) (h1 : 1 ≤ l) (h2 : l ≤ 50) : 50000 ≤ mercY l := by
  have hpi3 : 3 < π := Real.pi_gt_three
  have hpi315 : π < 3.15 := Real.pi_lt_d2
  have hx0 : 0 < l * (π / 360) := mul_pos (by linarith) (by positivity)
  have hxh : l * (π / 360) ≤ 1 / 2 := by nlinarith
  have hlog := log_tan_lower (l * (π / 360)) hx0 hxh
  have hxlb : (3 : ℝ) / 360 ≤ l * (π / 360) := by nlinarith
  unfold mercY
  linarith

/-- A point at integer latitude `lat2` with `1 ≤ |lat2| ≤ 50` is more
than 5 km (in fact over 55 km) of projected distance from any point on
the equator. -/
theorem far_lat (lat2 lng1 lng2 : ℝ) (h1 : 1 ≤ |lat2|) (h2 : |lat2| ≤ 50) :
    5 < distanceBetweenCoords 0 lng1 lat2 lng2 := by
  have hy : 50000 ≤ |mercY lat2 - mercY 0| := by
    rw [mercY_zero, sub_zero]
    rcases le_or_lt 0 lat2 with hpos | hneg
    · have he : |lat2| = lat2 := abs_of_nonneg hpos
      rw [he] at h1 h2
      calc (50000 : ℝ) ≤ mercY lat2 := mercY_lower lat2 h1 h2
      _ ≤ |mercY lat2| := le_abs_self _
    · have he : |lat2| = -lat2 := abs_of_neg hneg
      rw [he] at h1 h2
      have h3 := mercY_neg (-lat2)
      rw [neg_neg] at h3
      rw [h3, abs_neg]
      calc (50000 : ℝ) ≤ mercY (-lat2) := mercY_lower (-lat2) h1 h2
      _ ≤ |mercY (-lat2)| := le_abs_self _
  have h1d := abs_dy_le_dist 0 lng1 lat2 lng2
  unfold distanceBetweenCoords
  rw [lt_div_iff (show (0 : ℝ) < 1000 by norm_num)]
  linarith

/-! ## Evaluating `getBlocksInRadius` on the default grid

With the default configuration the candidate grid coordinates are the
integers `-3..3` around the rounded centre, spaced `blockSize = 1` — one
whole degree — apart, so every candidate except the centre itself is
over 55 km from the observer and fails the 2 km radius test. -/

theorem gbr_row_far (c : ℤ) (p : ℝ) (hp1 : 1 ≤ |p|) (hp2 : |p| ≤ 50) (l : List ℤ) :
    (l.filterMap fun q : ℤ =>
      if distanceBetweenCoords 0 (c : ℝ) p ((c : ℝ) + (q : ℝ)) ≤ 2 then
        some (p, (c : ℝ) + (q : ℝ))
      else none) = [] := by
  rw [List.filterMap_eq_nil_iff]
  intro q _
  have h := far_lat p (c : ℝ) ((c : ℝ) + (q : ℝ)) hp1 hp2
  rw [if_neg (by linarith)]

theorem filterMap_cons_eval {α β : Type _} (f : α → Option β) (a : α) (l : List α) :
    List.filterMap f (a :: l) = (f a).toList ++ List.filterMap f l := by
  cases h : f a
  · rw [List.filterMap_cons_none h, Option.toList_none, List.nil_append]
  · rw [List.filterMap_cons_some h, Option.toList_some, List.singleton_append]

theorem gbr_row_zero (c : ℤ) :
    (([-3, -2, -1, 0, 1, 2, 3] : List ℤ).filterMap fun q : ℤ =>
      if distanceBetweenCoords 0 (c : ℝ) 0 ((c : ℝ) + (q : ℝ)) ≤ 2 then
        some ((0 : ℝ), (c : ℝ) + (q : ℝ))
      else none) = [((0 : ℝ), (c : ℝ))] := by
  have hfar : ∀ q : ℤ, 1 ≤ |(q : ℝ)| →
      (distanceBetweenCoords 0 (c : ℝ) 0 ((c : ℝ) + (q : ℝ)) ≤ 2) = False := by
    intro q hq
    have h := far_lng 0 (c : ℝ) 0 ((c : ℝ) + (q : ℝ))
      (by rw [show (c : ℝ) + (q : ℝ) - (c : ℝ) = (q : ℝ) from by ring]; exact hq)
    exact eq_false (by linarith)
  have h3 := hfar (-3) (by push_cast; norm_num)
  have h2 := hfar (-2) (by push_cast; norm_num)
  have h1 := hfar (-1) (by push_cast; norm_num)
  have h1p := hfar 1 (by push_cast; norm_num)
  have h2p := hfar 2 (by push_cast; norm_num)
  have h3p := hfar 3 (by push_cast; norm_num)
  have h0 : (distanceBetweenCoords 0 (c : ℝ) 0 ((c : ℝ) + ((0 : ℤ) : ℝ)) ≤ 2) = True :=
    eq_true (by
      rw [show (c : ℝ) + ((0 : ℤ) : ℝ) = (c : ℝ) from by push_cast; ring,
        distanceBetweenCoords_self]
      norm_num)
  rw [filterMap_cons_eval, filterMap_cons_eval, filterMap_cons_eval, filterMap_cons_eval,
    filterMap_cons_eval, filterMap_cons_eval, filterMap_cons_eval, List.filterMap_nil]
  simp only [h3, h2, h1, h0, h1p, h2p, h3p]
  simp only [if_false, if_true, Option.toList_some, Option.toList_none, List.nil_append,
    List.append_nil, List.singleton_append]
  norm_num

theorem intRange_eval : intRange (-3) 3 = [-3, -2, -1, 0, 1, 2, 3] := by decide

theorem jsRound_zero_div_one : jsRound ((0 : ℝ) / 1) = 0 := by
  unfold jsRound
  exact Int.floor_eq_iff.mpr ⟨by norm_num, by norm_num⟩

theorem jsRound_intCast_div_one (c : ℤ) : jsRound ((c : ℝ) / 1) = c := by
  unfold jsRound
  refine Int.floor_eq_iff.mpr ⟨?_, ?_⟩
  · rw [div_one]; linarith
  · rw [div_one]; linarith

/-- Under the default configuration (`blockSize = 1`), an update at an
integer-degree position `(0, c)` selects exactly one candidate block:
the grid cell `(0, c)` the observer occupies.  All 48 other candidates
are integer degrees away — over 55 km of projected distance — and fail
the 2 km radius test. -/
theorem getBlocksInRadius_single (s : DataManagerState) (hbs : s.blockSize = 1) (c : ℤ) :
    getBlocksInRadius s 0 (c : ℝ) 2 = [((0 : ℝ), (c : ℝ))] := by
  simp only [getBlocksInRadius, hbs]
  rw [show (⌈(2 : ℝ) / 1⌉ + 1 : ℤ) = 3 by
    rw [div_one, show (2 : ℝ) = ((2 : ℤ) : ℝ) from by norm_num, Int.ceil_intCast]
    decide]
  rw [intRange_eval]
  simp only [jsRound_zero_div_one, jsRound_intCast_div_one, Int.cast_zero, zero_mul, mul_one,
    zero_add]
  simp only [List.flatMap_cons, List.flatMap_nil, List.append_nil]
  norm_num only
  rw [gbr_row_far c (-3) (by norm_num) (by norm_num) _,
    gbr_row_far c (-2) (by norm_num) (by norm_num) _,
    gbr_row_far c (-1) (by norm_num) (by norm_num) _,
    gbr_row_zero c,
    gbr_row_far c 1 (by norm_num) (by norm_num) _,
    gbr_row_far c 2 (by norm_num) (by norm_num) _,
    gbr_row_far c 3 (by norm_num) (by norm_num) _]
  simp

/-! ## Evaluating the scenario updates -/

theorem blockCenter_generateBlock (g : MockDataGenerator) (t lat lng : ℝ) :
    blockCenter (generateBlock g t lat lng).bounds = (lat, lng) := by
  unfold generateBlock calculateBounds blockCenter
  simp only [Prod.mk.injEq]
  constructor <;> ring

theorem first_update_eval :
    updateDronePosition (mkDataManager {}) 0 0 0 =
      (stateAfterFirst, [(⟨EvType.load, [blockA]⟩, [blockA])]) := by
  rw [show mkDataManager {} = (⟨[], none, 1, 2, 2.5, ⟨1000, 32⟩⟩ : DataManagerState) from rfl]
  have hgbr : getBlocksInRadius ⟨[], none, 1, 2, 2.5, ⟨1000, 32⟩⟩ 0 0 2 =
      [((0 : ℝ), (0 : ℝ))] := by
    have h := getBlocksInRadius_single ⟨[], none, 1, 2, 2.5, ⟨1000, 32⟩⟩ rfl 0
    simpa using h
  have hA : generateBlock ⟨1000, 32⟩ 0 0 0 = blockA := rfl
  have hcA : blockCenter blockA.bounds = ((0 : ℝ), (0 : ℝ)) := by
    rw [show blockA = generateBlock ⟨1000, 32⟩ 0 0 0 from rfl]
    exact blockCenter_generateBlock _ 0 0 0
  have hdist : (2.5 < distanceBetweenCoords 0 0 (0 : ℝ) (0 : ℝ)) = False :=
    eq_false (by rw [distanceBetweenCoords_self]; norm_num)
  show processUpdate ⟨[], none, 1, 2, 2.5, ⟨1000, 32⟩⟩ 0 0 0 =
    (stateAfterFirst, [(⟨EvType.load, [blockA]⟩, [blockA])])
  unfold processUpdate loadPhase unloadSet
  rw [hgbr]
  simp only [cacheHas, List.any_nil, Bool.not_false, List.filter_true, List.map_cons,
    List.map_nil]
  dsimp only
  rw [hA]
  simp only [List.foldl_cons, List.foldl_nil, cacheSet, List.any_nil, List.nil_append,
    Bool.false_eq_true, if_false]
  simp only [List.filter_cons, List.filter_nil, hcA, hdist, decide_False, Bool.false_eq_true,
    if_false]
  simp only [List.isEmpty_cons, List.isEmpty_nil, List.foldl_nil, List.append_nil,
    Bool.false_eq_true, if_false, if_true]
  rfl

theorem second_update_eval :
    updateDronePosition stateAfterFirst 0 10 1 =
      (stateAfterSecond,
        [(⟨EvType.load, [blockB]⟩, [blockA, blockB]),
          (⟨EvType.unload, [blockA]⟩, [blockB])]) := by
  rw [show stateAfterFirst =
    (⟨[blockA], some (0, 0), 1, 2, 2.5, ⟨1000, 32⟩⟩ : DataManagerState) from rfl]
  have hskip : (distanceBetweenCoords 0 0 0 10 < 0.1) = False :=
    eq_false (by have h := far_lng 0 0 0 10 (by norm_num); linarith)
  have hgbr : getBlocksInRadius ⟨[blockA], some (0, 0), 1, 2, 2.5, ⟨1000, 32⟩⟩ 0 10 2 =
      [((0 : ℝ), (10 : ℝ))] := by
    have h := getBlocksInRadius_single ⟨[blockA], some (0, 0), 1, 2, 2.5, ⟨1000, 32⟩⟩ rfl 10
    simpa using h
  have hidA : blockA.id = (0 : ℝ × ℝ) := rfl
  have hB : generateBlock ⟨1000, 32⟩ 1 0 10 = blockB := rfl
  have hidB : blockB.id = ((0 : ℝ), (10 : ℝ)) := rfl
  have hneqa : ((0 : ℝ × ℝ) = ((0 : ℝ), (10 : ℝ))) = False := by
    refine eq_false fun h => ?_
    have h2 := congrArg Prod.snd h
    norm_num at h2
  have hneqb : (((0 : ℝ), (10 : ℝ)) = (0 : ℝ × ℝ)) = False := by
    refine eq_false fun h => ?_
    have h2 := congrArg Prod.snd h
    norm_num at h2
  have hcA1 : (blockCenter blockA.bounds).1 = 0 := by
    rw [show blockA = generateBlock ⟨1000, 32⟩ 0 0 0 from rfl, blockCenter_generateBlock]
  have hcA2 : (blockCenter blockA.bounds).2 = 0 := by
    rw [show blockA = generateBlock ⟨1000, 32⟩ 0 0 0 from rfl, blockCenter_generateBlock]
  have hcB1 : (blockCenter blockB.bounds).1 = 0 := by
    rw [show blockB = generateBlock ⟨1000, 32⟩ 1 0 10 from rfl, blockCenter_generateBlock]
  have hcB2 : (blockCenter blockB.bounds).2 = 10 := by
    rw [show blockB = generateBlock ⟨1000, 32⟩ 1 0 10 from rfl, blockCenter_generateBlock]
  have hfar1 : (2.5 < distanceBetweenCoords 0 10 0 0) = True :=
    eq_true (by have h := far_lng 0 10 0 0 (by norm_num); linarith)
  have hfar1' : (distanceBetweenCoords 0 10 0 0 ≤ 2.5) = False :=
    eq_false (by have h := far_lng 0 10 0 0 (by norm_num); push_neg; linarith)
  have hnear : (2.5 < distanceBetweenCoords 0 10 0 10) = False :=
    eq_false (by rw [distanceBetweenCoords_self]; norm_num)
  have hnear' : (distanceBetweenCoords 0 10 0 10 ≤ 2.5) = True :=
    eq_true (by rw [distanceBetweenCoords_self]; norm_num)
  unfold updateDronePosition
  dsimp only
  simp only [hskip, if_false]
  unfold processUpdate loadPhase unloadSet
  rw [hgbr]
  simp [cacheHas, cacheSet, cacheDelete, hidA, hidB, hB, hneqa, hneqb, hcA1, hcA2, hcB1, hcB2,
    hfar1, hfar1', hnear, hnear', stateAfterSecond]

/-! ## Claim theorems: the initial-load scenario -/

/-- C2 (supporting theorem for the block-loading unit bug).  Starting
from an empty default manager, a single `updateDronePosition(0, 0)` call
leaves exactly ONE resident block, with key (0, 0) — not the 9–13 tiles
of the claim.  `getBlocksInRadius` spaces the candidate grid
`blockSize = 1` apart in *degrees* (≈ 111 km at the equator), although
the option is documented as kilometres, so every non-centre candidate is
over 55 km away and fails the 2 km radius test. -/
theorem initial_update_loads_single_block :
    (getLoadedBlocks (updateDronePosition (mkDataManager {}) 0 0 0).1).length = 1 ∧
      ((updateDronePosition (mkDataManager {}) 0 0 0).1.cache.map fun b => b.id) =
        [((0 : ℝ), (0 : ℝ))] := by
  rw [first_update_eval]
  exact ⟨rfl, rfl⟩

/-! ## Claim theorems: notification ordering -/

theorem processUpdate_event_order (s : DataManagerState) (lat lng t : ℝ) :
    ((processUpdate s lat lng t).2.map fun e => e.1.type) ∈
        ([[], [EvType.load], [EvType.unload], [EvType.load, EvType.unload]] :
          List (List EvType)) ∧
      (∀ e ∈ (processUpdate s lat lng t).2, e.1.type = EvType.unload →
        e.2 = (processUpdate s lat lng t).1.cache) ∧
      (∀ e ∈ (processUpdate s lat lng t).2, e.1.type = EvType.load →
        e.2 = (loadPhase s lat lng t).1) := by
  unfold processUpdate
  by_cases h1 : (loadPhase s lat lng t).2.isEmpty <;>
    by_cases h2 : (unloadSet s (loadPhase s lat lng t).1 lat lng).isEmpty <;>
      simp [h1, h2]

/-- C3 counterexample.  The scenario is reachable: a fresh default
manager updated at (0, 0) holds block (0, 0); the further update at
(0, 10) emits a "load" event and then an "unload" event, and the load
listener runs while the cache still holds BOTH blocks (its snapshot has
length 2) although the final cache of the same call has length 1: the
removal of block (0, 0) is a cache mutation that happens only AFTER the
load listener was invoked, refuting the claim that every cache mutation
completes before any listener runs. -/
theorem load_listener_sees_unremoved_block :
    updateDronePosition (mkDataManager {}) 0 0 0 =
        (stateAfterFirst, [(⟨EvType.load, [blockA]⟩, [blockA])]) ∧
      ((updateDronePosition stateAfterFirst 0 10 1).2.map fun e => (e.1.type, e.2.length)) =
        [(EvType.load, 2), (EvType.unload, 1)] ∧
      ((updateDronePosition stateAfterFirst 0 10 1).1.cache).length = 1 := by
  refine ⟨first_update_eval, ?_, ?_⟩
  · rw [second_update_eval]
    rfl
  · rw [second_update_eval]
    rfl

/-- C3 as amended.  Within one `updateDronePosition` call the emitted
events are, in order, at most one "load" followed by at most one
"unload"; all cache insertions complete before the load listener is
invoked (its snapshot is exactly the cache after the load phase), and
all removals complete before the unload listener is invoked (its
snapshot is exactly the final cache).  When both events occur, the
removals happen after the load notification, so the load listener can
still observe blocks that the same call goes on to remove. -/
theorem update_event_order :
    ∀ (s : DataManagerState) (lat lng t : ℝ),
      ((updateDronePosition s lat lng t).2.map fun e => e.1.type) ∈
          ([[], [EvType.load], [EvType.unload], [EvType.load, EvType.unload]] :
            List (List EvType)) ∧
        (∀ e ∈ (updateDronePosition s lat lng t).2, e.1.type = EvType.unload →
          e.2 = (updateDronePosition s lat lng t).1.cache) ∧
        (∀ e ∈ (updateDronePosition s lat lng t).2, e.1.type = EvType.load →
          e.2 = (loadPhase s lat lng t).1) := by
  intro s lat lng t
  unfold updateDronePosition
  split
  · split_ifs with hd
    · simp
    · exact processUpdate_event_order s lat lng t
  · exact processUpdate_event_order s lat lng t

end Earth
